import Mathlib

/-!
Verification of the trial-api service (src/main.rs) against its
natural-language specification.

The embedding translates the Rust source shallowly:
* timestamps (chrono DateTime of Utc) are modelled as Nat instants;
* the shared HashMap of String to DateTime guarded by a Mutex is modelled
  as an association list with cons-shadowing insert, which has the same
  lookup semantics as HashMap insert (the Mutex makes each test-and-set
  atomic, so executions interleave only at whole gate operations);
* network and SMTP effects are modelled by oracles: the result of
  create_subscription is an input to the handler model, and the upstream
  calls the handler issues are recorded in an explicit trace;
* UUIDs are opaque strings (main.rs only ever renders them with
  to_string and compares them for equality).
-/

/-! ## Configuration constants (main.rs lines 21-30) -/

def DEFAULT_DAYS : Int := 1

def DEFAULT_ENV : String := "dev"

def PROTOS : List String :=
  ["VlessTcpReality", "VlessGrpcReality", "VlessXhttpReality", "Hysteria2"]

/-! ## Request and response models (main.rs lines 34-59, 158-171) -/

inductive TrialSource where
  | Mobile
  | Site
deriving DecidableEq

/-- The Display impl for TrialSource (main.rs lines 164-171). -/
def TrialSource.display : TrialSource → String
  | .Mobile => "trial-mobile"
  | .Site => "trial-site"

structure TrialRequest where
  email : Option String
  telegram : Option String
  source : Option TrialSource
  env : Option String
deriving DecidableEq

/-- TrialRequest::validate (main.rs lines 43-51): false when both email and
source are absent, false when both are present, true otherwise. -/
def TrialRequest.validate (r : TrialRequest) : Bool :=
  if r.email.isNone && r.source.isNone then false
  else if r.email.isSome && r.source.isSome then false
  else true

structure TrialResponse where
  status : String
  message : String
  sub_id : Option String
deriving DecidableEq

/-- UUIDs are opaque in main.rs: freshly generated, rendered, compared. -/
abbrev Uuid := String

/-! ## The idempotency gate (main.rs lines 220-233) -/

/-- The in-memory index HashMap of String to DateTime of Utc, modelled as
an association list; cons shadows older bindings, which gives the same
List.lookup semantics as HashMap insert-with-replace. -/
abbrev Store := List (String × Nat)

inductive AdmitOutcome where
  | Admitted
  | AlreadyPresent
deriving DecidableEq

/-- The gate of main.rs lines 222-233 (the spec names it admit_email): under
the store lock, execute guard.insert(email, now) — which ALWAYS stores the
new timestamp and returns the previous value if one existed — and report
AlreadyPresent exactly when a previous value existed. -/
def admit_email (store : Store) (email : String) (now : Nat) :
    AdmitOutcome × Store :=
  let old := List.lookup email store
  let store1 := (email, now) :: store
  match old with
  | some _ => (AdmitOutcome.AlreadyPresent, store1)
  | none => (AdmitOutcome.Admitted, store1)

/-! ## The handler (main.rs lines 205-301) -/

/-- One HTTP request issued against the upstream FRKN API: either the
subscription creation of main.rs lines 314-341 (body fields env, days,
referred_by rendered via Display) or a connection creation of lines
343-389 (body fields env, proto, subscription_id and an optional token). -/
inductive UpstreamCall where
  | subscription (env : String) (days : Int) (referredBy : String)
  | connection (env : String) (proto : String) (subId : Uuid)
      (token : Option Uuid)
deriving DecidableEq

/-- One line appended by save_trial (main.rs lines 515-538): the handler
passes (email, req.telegram, sub_id, DEFAULT_ENV, now). -/
structure JournalEntry where
  time : Nat
  email : String
  telegram : String
  subId : Uuid
  env : String
deriving DecidableEq

/-- Everything observable about one run of handle_trial: the JSON reply,
the store left behind, the upstream calls issued in order, the journal
appends requested and the emails sent. -/
structure HandlerResult where
  response : TrialResponse
  store : Store
  calls : List UpstreamCall
  journal : List JournalEntry
  emails : List (String × Uuid)
deriving DecidableEq

/-- Main.rs lines 235-301: the part of handle_trial after the gate.
Line 239 resolves referred_by as req.source.unwrap_or(Site); line 240 is
req.env.as_deref().unwrap_or("DEFAULT_ENV") — the string literal
"DEFAULT_ENV", not the constant DEFAULT_ENV.  subOutcome is the oracle
for the create_subscription result (none = Err), hysToken the oracle for
the Uuid::new_v4() token generated for the Hysteria2 connection.  The
four connection calls of lines 258-270 all pass the constant DEFAULT_ENV;
their individual failures are logged and ignored (lines 272-276) so they
do not appear as oracles.  Lines 280-300: with an email, append to the
journal, send the mail and reply ok with the sub id; without, reply ok
with no journal line and no mail. -/
def handle_trial_rest (req : TrialRequest) (store : Store) (now : Nat)
    (subOutcome : Option Uuid) (hysToken : Uuid) : HandlerResult :=
  let referredBy := req.source.getD TrialSource.Site
  let env := (req.env).getD "DEFAULT_ENV"
  let subCall := UpstreamCall.subscription env DEFAULT_DAYS referredBy.display
  match subOutcome with
  | none =>
    { response := ⟨"error", "Failed to create subscription", none⟩
      store := store
      calls := [subCall]
      journal := []
      emails := [] }
  | some subId =>
    let connCalls := PROTOS.map fun proto =>
      if proto == "Hysteria2" then
        UpstreamCall.connection DEFAULT_ENV proto subId (some hysToken)
      else
        UpstreamCall.connection DEFAULT_ENV proto subId none
    match req.email with
    | some e =>
      { response := ⟨"ok", "Trial activated. Check your email.", some subId⟩
        store := store
        calls := subCall :: connCalls
        journal := [⟨now, e, req.telegram.getD "", subId, DEFAULT_ENV⟩]
        emails := [(e, subId)] }
    | none =>
      { response := ⟨"ok", "Trial activated.", some subId⟩
        store := store
        calls := subCall :: connCalls
        journal := []
        emails := [] }

/-- handle_trial (main.rs lines 205-301).  Lines 210-216: an invalid
request is answered immediately.  Lines 220-233: when an email is
present, run the locked test-and-set; a previous entry answers
"Trial already requested" with the store already mutated by the insert.
Otherwise continue with handle_trial_rest.  now0 is the Utc::now() taken
inside the gate (line 226), now the one taken at line 235. -/
def handle_trial (req : TrialRequest) (store : Store) (now0 now : Nat)
    (subOutcome : Option Uuid) (hysToken : Uuid) : HandlerResult :=
  if req.validate then
    match req.email with
    | some e =>
      match admit_email store e now0 with
      | (AdmitOutcome.AlreadyPresent, store1) =>
        { response := ⟨"error", "Trial already requested", none⟩
          store := store1
          calls := []
          journal := []
          emails := [] }
      | (AdmitOutcome.Admitted, store1) =>
        handle_trial_rest req store1 now subOutcome hysToken
    | none => handle_trial_rest req store now subOutcome hysToken
  else
    { response := ⟨"error", "Trial request is not valid", none⟩
      store := store
      calls := []
      journal := []
      emails := [] }

/-! ## Environment-variable access (main.rs lines 305-312, 314-321,
343-350, 393-396) -/

/-- The process environment: std::env::var, as a partial map. -/
abbrev EnvMap := String → Option String

/-- How a call can leave the env-access prefix of an upstream operation:
with a value, with a returned error (the ? operator on a missing
variable), or by aborting the thread (unwrap on a missing variable). -/
inductive EnvOutcome (α : Type) where
  | ok (a : α)
  | err
  | panicked
deriving DecidableEq

/-- auth_headers (main.rs lines 305-312): reads FRKN_API_TOKEN with
std::env::var(..).unwrap(), which PANICS when the variable is absent;
on success it attaches the Authorization, Accept and Content-Type
headers. -/
def auth_headers (envv : EnvMap) :
    EnvOutcome (List (String × String)) :=
  match envv "FRKN_API_TOKEN" with
  | none => EnvOutcome.panicked
  | some tok =>
    EnvOutcome.ok
      [("Authorization", "Bearer " ++ tok),
       ("Accept", "application/json"),
       ("Content-Type", "application/json")]

/-- The request-building prefix of create_subscription (main.rs lines
314-331): FRKN_HOST is read with the ? operator (absence returns an
error), then auth_headers wraps the request builder (absence of the
token panics).  Network transmission itself is outside this model. -/
def create_subscription_build (envv : EnvMap) :
    EnvOutcome (String × List (String × String)) :=
  match envv "FRKN_HOST" with
  | none => EnvOutcome.err
  | some host =>
    match auth_headers envv with
    | EnvOutcome.ok hs => EnvOutcome.ok (host, hs)
    | EnvOutcome.err => EnvOutcome.err
    | EnvOutcome.panicked => EnvOutcome.panicked

/-- The request-building prefix of create_connection (main.rs lines
343-375): same shape as create_subscription_build — FRKN_HOST through ?,
then auth_headers. -/
def create_connection_build (envv : EnvMap) :
    EnvOutcome (String × List (String × String)) :=
  match envv "FRKN_HOST" with
  | none => EnvOutcome.err
  | some host =>
    match auth_headers envv with
    | EnvOutcome.ok hs => EnvOutcome.ok (host, hs)
    | EnvOutcome.err => EnvOutcome.err
    | EnvOutcome.panicked => EnvOutcome.panicked

/-- The env-access prefix of send_email (main.rs lines 393-396):
GMAIL_USER, GMAIL_APP_PASSWORD and FRKN_HOST are read in that order,
each with the ? operator, so any absence returns an error. -/
def send_email_build (envv : EnvMap) :
    EnvOutcome (String × String × String) :=
  match envv "GMAIL_USER" with
  | none => EnvOutcome.err
  | some user =>
    match envv "GMAIL_APP_PASSWORD" with
    | none => EnvOutcome.err
    | some pass =>
      match envv "FRKN_HOST" with
      | none => EnvOutcome.err
      | some host => EnvOutcome.ok (user, pass, host)

/-! ## Splitting on a separator character

Rust's str::split(',') and io lines() both split on a single character;
this is the common model for both. -/

/-- Split a character list at every occurrence of sep; like Rust's
str::split, it yields the (possibly empty) runs between separators and
always yields at least one piece. -/
def splitOnCh (sep : Char) : List Char → List (List Char)
  | [] => [[]]
  | c :: cs =>
    let r := splitOnCh sep cs
    if c = sep then [] :: r
    else
      match r with
      | [] => [[c]]
      | f :: rest => (c :: f) :: rest

/-- An email address, modelled from the spec: "if present must parse as
an email address".  The grammar itself lives in the external lettre
crate; the model keeps the part every mailbox grammar shares — a
nonempty user part, one at-sign, a nonempty domain. -/
def parses_as_email (s : String) : Bool :=
  match splitOnCh '@' s.data with
  | [user, domain] => !user.isEmpty && !domain.isEmpty
  | _ => false

/-! ## Timestamp rendering and parsing

Modelled from the spec: save_trial renders the timestamp with chrono's
to_rfc3339 and load_trials parses field 0 with chrono's DateTime parse —
both in an external crate.  The model is an injective decimal rendering
with a round-tripping parse; it keeps the two properties load_trials
relies on: the rendering never contains a comma or a newline, and
parsing a rendered timestamp succeeds. -/

def digitChar (d : Nat) : Char :=
  match d with
  | 0 => '0' | 1 => '1' | 2 => '2' | 3 => '3' | 4 => '4'
  | 5 => '5' | 6 => '6' | 7 => '7' | 8 => '8' | _ => '9'

def charToDigit (c : Char) : Option Nat :=
  if c = '0' then some 0 else if c = '1' then some 1
  else if c = '2' then some 2 else if c = '3' then some 3
  else if c = '4' then some 4 else if c = '5' then some 5
  else if c = '6' then some 6 else if c = '7' then some 7
  else if c = '8' then some 8 else if c = '9' then some 9
  else none

def renderTsAux : Nat → Nat → List Char
  | 0, _ => []
  | fuel + 1, n =>
    if n = 0 then []
    else renderTsAux fuel (n / 10) ++ [digitChar (n % 10)]

def renderTs (n : Nat) : List Char := renderTsAux n n

def parseTs (l : List Char) : Option Nat :=
  l.foldl
    (fun acc c =>
      match acc, charToDigit c with
      | some a, some d => some (a * 10 + d)
      | _, _ => none)
    (some 0)

/-! ## The CSV journal (main.rs lines 515-554) -/

/-- save_trial (main.rs lines 515-538): append one line
time,email,telegram-or-empty,sub_id,env plus a newline to the file
(writeln with the five fields joined by single commas, no escaping). -/
def save_trial (file : List Char) (email : List Char)
    (tg : Option (List Char)) (subId : List Char) (env : List Char)
    (time : Nat) : List Char :=
  file ++
    (renderTs time ++ ',' ::
      (email ++ ',' :: ((tg.getD []) ++ ',' :: (subId ++ ',' :: env)))) ++
    ['\n']

/-- The body of the load_trials loop (main.rs lines 544-551): split the
line on commas; when there are at least two fields and field 0 parses as
a timestamp, insert (field 1, timestamp) into the map; otherwise skip
the line.  Cons shadows, matching HashMap insert. -/
def load_line (map : List (List Char × Nat)) (line : List Char) :
    List (List Char × Nat) :=
  let parts := splitOnCh ',' line
  if 2 ≤ parts.length then
    match parseTs (parts.getD 0 []) with
    | some ts => (parts.getD 1 [], ts) :: map
    | none => map
  else map

/-- load_trials (main.rs lines 540-554): run load_line over every line
of the file, starting from the empty map. -/
def load_trials (file : List Char) : List (List Char × Nat) :=
  (splitOnCh '\n' file).foldl load_line []

/-- The arguments of one save_trial call, as made by handle_trial. -/
structure CsvEntry where
  time : Nat
  email : List Char
  telegram : Option (List Char)
  subId : List Char
  env : List Char

/-- The journal file produced by a sequence of save_trial appends
starting from the missing-file (empty) state. -/
def journalOf (entries : List CsvEntry) : List Char :=
  entries.foldl
    (fun file en => save_trial file en.email en.telegram en.subId en.env en.time)
    []

/-- A field that the CSV line format keeps intact: no separator comma,
no record-terminating newline. -/
def goodField (l : List Char) : Prop := ',' ∉ l ∧ '\n' ∉ l

instance (l : List Char) : Decidable (goodField l) := by
  unfold goodField; infer_instance

/-! ## Helper lemmas -/

theorem lookup_cons_iff {α β : Type} [BEq α] [LawfulBEq α] [DecidableEq α]
    (k a : α) (b : β)
    (l : List (α × β)) :
    List.lookup k ((a, b) :: l) = if k = a then some b else List.lookup k l := by
  rw [List.lookup_cons]
  by_cases h : k = a
  · simp [h]
  · have hb : (k == a) = false := beq_eq_false_iff_ne.mpr h
    simp [hb, h]

/-! ## Claim theorems -/

/-- C1 counterexample: admitting "a@b.c" at time 0 and again at time 1
does return the duplicate outcome the second time, but the stored
timestamp is now 1, not the original 0 — the insert-based test-and-set
of main.rs line 226 mutates the index on a duplicate admission. -/
theorem admit_email_overwrite_counterexample :
    (admit_email (admit_email [] "a@b.c" 0).2 "a@b.c" 1).1 =
      AdmitOutcome.AlreadyPresent ∧
    List.lookup "a@b.c" (admit_email (admit_email [] "a@b.c" 0).2 "a@b.c" 1).2 ≠
      some 0 ∧
    List.lookup "a@b.c" (admit_email (admit_email [] "a@b.c" 0).2 "a@b.c" 1).2 =
      some 1 := by
  decide

/-- C1 (amended): calling the gate for e at t1 (admitted) and then again
at t2 returns the duplicate outcome the second time and leaves the key
set of the index unchanged, but the stored timestamp for e is overwritten
to t2 by the unconditional insert of main.rs line 226. -/
theorem admit_email_duplicate_behaviour (store : Store) (e : String)
    (t1 t2 : Nat) (h : List.lookup e store = none) :
    (admit_email store e t1).1 = AdmitOutcome.Admitted ∧
    (admit_email (admit_email store e t1).2 e t2).1 =
      AdmitOutcome.AlreadyPresent ∧
    List.lookup e (admit_email (admit_email store e t1).2 e t2).2 = some t2 ∧
    ∀ k, (List.lookup k (admit_email (admit_email store e t1).2 e t2).2).isSome =
      (List.lookup k (admit_email store e t1).2).isSome := by
  refine ⟨?_, ?_, ?_, ?_⟩
  · simp [admit_email, h]
  · simp [admit_email, h, lookup_cons_iff]
  · simp [admit_email, h, lookup_cons_iff]
  · intro k
    by_cases hk : k = e <;> simp [admit_email, h, lookup_cons_iff, hk]

/-- C1 witness: the amended theorem at store = [], e = "a@b.c", t1 = 0,
t2 = 1. -/
theorem admit_email_duplicate_behaviour_witness :
    (admit_email [] "a@b.c" 0).1 = AdmitOutcome.Admitted ∧
    (admit_email (admit_email [] "a@b.c" 0).2 "a@b.c" 1).1 =
      AdmitOutcome.AlreadyPresent ∧
    List.lookup "a@b.c" (admit_email (admit_email [] "a@b.c" 0).2 "a@b.c" 1).2 =
      some 1 := by
  have h := admit_email_duplicate_behaviour [] "a@b.c" 0 1 rfl
  exact ⟨h.1, h.2.1, h.2.2.1⟩

/-- C4 code bug, evaluated: for a request with no env field, the env
label recorded in the subscription call is the string literal
"DEFAULT_ENV" — main.rs line 240 wrote unwrap_or("DEFAULT_ENV"), quoting
the constant's name — which differs from the constant DEFAULT_ENV =
"dev" that the spec names as the default. -/
theorem default_env_literal_bug :
    (handle_trial ⟨some "a@b.c", none, none, none⟩ [] 0 0
        (some "sid") "tok").calls.head? =
      some (UpstreamCall.subscription "DEFAULT_ENV" DEFAULT_DAYS
        "trial-site") ∧
    ("DEFAULT_ENV" : String) ≠ DEFAULT_ENV ∧
    (handle_trial ⟨some "a@b.c", none, some TrialSource.Mobile, some "prod"⟩
        [] 0 0 (some "sid") "tok").calls.head? = none ∧
    (handle_trial ⟨none, none, some TrialSource.Mobile, some "prod"⟩
        [] 0 0 (some "sid") "tok").calls.head? =
      some (UpstreamCall.subscription "prod" DEFAULT_DAYS "trial-mobile") := by
  decide

/-- C6 counterexample: "notanemail" parses as no email address, yet the
request carrying it passes validation and the handler proceeds to a
successful activation instead of answering "Trial request is not
valid" — TrialRequest::validate (main.rs lines 43-51) never parses the
email. -/
theorem unparseable_email_passes_validation :
    parses_as_email "notanemail" = false ∧
    TrialRequest.validate ⟨some "notanemail", none, none, none⟩ = true ∧
    (handle_trial ⟨some "notanemail", none, none, none⟩ [] 0 0
        (some "sid") "tok").response.message ≠ "Trial request is not valid" ∧
    (handle_trial ⟨some "notanemail", none, none, none⟩ [] 0 0
        (some "sid") "tok").response.status = "ok" := by
  decide

/-- C6 (amended): validation checks only the presence pattern — it
succeeds exactly when one of email and source is present and the other
absent — so an email string that does not parse as an address is not
rejected; address parsing only happens later, in the best-effort
send_email. -/
theorem validate_presence_only (r : TrialRequest) :
    r.validate = (r.email.isSome != r.source.isSome) := by
  rcases r with ⟨em, tg, src, envf⟩
  cases em <;> cases src <;> simp [TrialRequest.validate]

/-- After a validated request carrying email e runs the handler, e maps
to the gate-time timestamp in the resulting store: the gate inserts
unconditionally and no later step of the handler touches the store. -/
theorem lookup_store_after (req : TrialRequest) (store : Store)
    (now0 now : Nat) (subO : Option Uuid) (tok : Uuid) (e : String)
    (hv : req.validate = true) (he : req.email = some e) :
    List.lookup e (handle_trial req store now0 now subO tok).store =
      some now0 := by
  unfold handle_trial
  rw [hv, he]
  simp only [if_true]
  cases hl : List.lookup e store with
  | none =>
    simp only [admit_email, hl]
    cases subO with
    | none => simp [handle_trial_rest, lookup_cons_iff]
    | some s => simp [handle_trial_rest, he, lookup_cons_iff]
  | some v =>
    simp only [admit_email, hl]
    simp [lookup_cons_iff]

/-- C2: when two requests with the same email run, the mutex around the
index serializes their test-and-sets, so any interleaving is one of the
two sequential orders; quantifying over both orders (r1 and r2 are
arbitrary), the request whose gate runs second always receives the
"Trial already requested" error, hence at most one of the two can
receive status "ok". -/
theorem concurrent_duplicate_excluded (r1 r2 : TrialRequest) (e : String)
    (store : Store) (n01 n1 n02 n2 : Nat) (s1 s2 : Option Uuid) (t1 t2 : Uuid)
    (h1 : r1.validate = true) (h2 : r2.validate = true)
    (he1 : r1.email = some e) (he2 : r2.email = some e) :
    (handle_trial r2 (handle_trial r1 store n01 n1 s1 t1).store
        n02 n2 s2 t2).response = ⟨"error", "Trial already requested", none⟩ ∧
    ¬((handle_trial r1 store n01 n1 s1 t1).response.status = "ok" ∧
      (handle_trial r2 (handle_trial r1 store n01 n1 s1 t1).store
          n02 n2 s2 t2).response.status = "ok") := by
  have hl := lookup_store_after r1 store n01 n1 s1 t1 e h1 he1
  have hresp : (handle_trial r2 (handle_trial r1 store n01 n1 s1 t1).store
      n02 n2 s2 t2).response = ⟨"error", "Trial already requested", none⟩ := by
    set st1 := (handle_trial r1 store n01 n1 s1 t1).store with hst
    unfold handle_trial
    rw [h2, he2]
    simp only [if_true, admit_email, hl]
  refine ⟨hresp, fun hcon => ?_⟩
  have hs := hcon.2
  rw [hresp] at hs
  exact absurd hs (by decide)

/-- C2 witness: two identical requests for "a@b.c" against the empty
store, both with successful subscription oracles. -/
theorem concurrent_duplicate_excluded_witness :
    (handle_trial ⟨some "a@b.c", none, none, none⟩
        (handle_trial ⟨some "a@b.c", none, none, none⟩ [] 0 0
          (some "sid1") "t1").store 1 1 (some "sid2") "t2").response =
      ⟨"error", "Trial already requested", none⟩ ∧
    ¬((handle_trial ⟨some "a@b.c", none, none, none⟩ [] 0 0
          (some "sid1") "t1").response.status = "ok" ∧
      (handle_trial ⟨some "a@b.c", none, none, none⟩
          (handle_trial ⟨some "a@b.c", none, none, none⟩ [] 0 0
            (some "sid1") "t1").store 1 1 (some "sid2") "t2").response.status =
        "ok") :=
  concurrent_duplicate_excluded ⟨some "a@b.c", none, none, none⟩
    ⟨some "a@b.c", none, none, none⟩ "a@b.c" [] 0 0 1 1
    (some "sid1") (some "sid2") "t1" "t2" (by decide) (by decide) rfl rfl

/-- C3: for a validated, newly admitted email request whose
create_subscription call fails, the handler replies with status "error",
message "Failed to create subscription" and sub_id null, performs no
journal append and no email send, issues only the one subscription call,
and the email stays in the idempotency index (the admission is not
rolled back). -/
theorem subscription_failure_no_rollback (req : TrialRequest) (store : Store)
    (now0 now : Nat) (tok : Uuid) (e : String)
    (hv : req.validate = true) (he : req.email = some e)
    (habs : List.lookup e store = none) :
    (handle_trial req store now0 now none tok).response =
      ⟨"error", "Failed to create subscription", none⟩ ∧
    (handle_trial req store now0 now none tok).journal = [] ∧
    (handle_trial req store now0 now none tok).emails = [] ∧
    List.lookup e (handle_trial req store now0 now none tok).store =
      some now0 ∧
    (handle_trial req store now0 now none tok).calls =
      [UpstreamCall.subscription ((req.env).getD "DEFAULT_ENV") DEFAULT_DAYS
        ((req.source.getD TrialSource.Site).display)] := by
  unfold handle_trial
  rw [hv, he]
  simp only [if_true, admit_email, habs]
  refine ⟨?_, ?_, ?_, ?_, ?_⟩ <;> simp [handle_trial_rest, lookup_cons_iff]

/-- C3 witness: the request for "a@b.c" against the empty store with a
failing subscription oracle. -/
theorem subscription_failure_no_rollback_witness :
    (handle_trial ⟨some "a@b.c", none, none, none⟩ [] 0 0 none
        "tok").response = ⟨"error", "Failed to create subscription", none⟩ ∧
    (handle_trial ⟨some "a@b.c", none, none, none⟩ [] 0 0 none
        "tok").journal = [] ∧
    (handle_trial ⟨some "a@b.c", none, none, none⟩ [] 0 0 none
        "tok").emails = [] ∧
    List.lookup "a@b.c" (handle_trial ⟨some "a@b.c", none, none, none⟩ [] 0 0
        none "tok").store = some 0 := by
  have h := subscription_failure_no_rollback ⟨some "a@b.c", none, none, none⟩
    [] 0 0 "tok" "a@b.c" (by decide) rfl rfl
  exact ⟨h.1, h.2.1, h.2.2.1, h.2.2.2.1⟩

/-- C7: a successful activation issues exactly this trace — one
subscription call first, then one connection call per protocol in
PROTOS, with exactly the Hysteria2 connection carrying the generated
token and the other three carrying none.  The four connection futures
are awaited jointly (main.rs join_all); the trace records them in
PROTOS order, which the claim leaves irrelevant. -/
theorem activation_call_trace (req : TrialRequest) (store : Store)
    (now0 now : Nat) (subId tok : Uuid)
    (hv : req.validate = true)
    (hgate : ∀ e, req.email = some e → List.lookup e store = none) :
    (handle_trial req store now0 now (some subId) tok).calls =
      [UpstreamCall.subscription ((req.env).getD "DEFAULT_ENV") DEFAULT_DAYS
          ((req.source.getD TrialSource.Site).display),
       UpstreamCall.connection DEFAULT_ENV "VlessTcpReality" subId none,
       UpstreamCall.connection DEFAULT_ENV "VlessGrpcReality" subId none,
       UpstreamCall.connection DEFAULT_ENV "VlessXhttpReality" subId none,
       UpstreamCall.connection DEFAULT_ENV "Hysteria2" subId (some tok)] := by
  cases hem : req.email with
  | none =>
    unfold handle_trial
    rw [hv, hem]
    simp [handle_trial_rest, PROTOS, hem]
  | some e =>
    have habs := hgate e hem
    unfold handle_trial
    rw [hv, hem]
    simp only [if_true, admit_email, habs]
    simp [handle_trial_rest, hem, PROTOS]

/-- C7 witness: the trace of the "a@b.c" activation against the empty
store. -/
theorem activation_call_trace_witness :
    (handle_trial ⟨some "a@b.c", none, none, none⟩ [] 0 0 (some "sid")
        "tok").calls =
      [UpstreamCall.subscription "DEFAULT_ENV" DEFAULT_DAYS "trial-site",
       UpstreamCall.connection DEFAULT_ENV "VlessTcpReality" "sid" none,
       UpstreamCall.connection DEFAULT_ENV "VlessGrpcReality" "sid" none,
       UpstreamCall.connection DEFAULT_ENV "VlessXhttpReality" "sid" none,
       UpstreamCall.connection DEFAULT_ENV "Hysteria2" "sid" (some "tok")] :=
  activation_call_trace ⟨some "a@b.c", none, none, none⟩ [] 0 0 "sid" "tok"
    (by decide) (fun e _ => rfl)

/-- In every branch of handle_trial_rest, the connection calls and the
journal entry carry the constant DEFAULT_ENV. -/
theorem handle_trial_rest_env_dev (req : TrialRequest) (st : Store) (now : Nat)
    (subO : Option Uuid) (tok : Uuid) :
    ((handle_trial_rest req st now subO tok).calls.all fun c =>
      match c with
      | UpstreamCall.connection envc _ _ _ => envc == DEFAULT_ENV
      | UpstreamCall.subscription _ _ _ => true) = true ∧
    ((handle_trial_rest req st now subO tok).journal.all
      fun j => j.env == DEFAULT_ENV) = true := by
  cases subO <;> cases hem : req.email <;> simp [handle_trial_rest, hem, PROTOS]

/-- C9: in every run of the handler — whatever env the request supplied —
every connection call carries the hard-coded constant DEFAULT_ENV = "dev"
(main.rs lines 265 and 267), and every journal append records DEFAULT_ENV
as its env field (line 281); the request env is used only for the
subscription call. -/
theorem connection_and_journal_env_hardcoded (req : TrialRequest)
    (store : Store) (now0 now : Nat) (subO : Option Uuid) (tok : Uuid) :
    ((handle_trial req store now0 now subO tok).calls.all fun c =>
      match c with
      | UpstreamCall.connection envc _ _ _ => envc == DEFAULT_ENV
      | UpstreamCall.subscription _ _ _ => true) = true ∧
    ((handle_trial req store now0 now subO tok).journal.all
      fun j => j.env == DEFAULT_ENV) = true ∧
    DEFAULT_ENV = "dev" := by
  refine ⟨?_, ?_, rfl⟩ <;>
  · unfold handle_trial
    cases hv : req.validate
    · simp
    · cases hem : req.email with
      | none =>
        have h := handle_trial_rest_env_dev req store now subO tok
        simp [hem, h.1, h.2]
      | some e =>
        cases hl : List.lookup e store with
        | none =>
          have h := handle_trial_rest_env_dev req ((e, now0) :: store) now
            subO tok
          simp only [admit_email, hl, hem]
          simp [h.1, h.2]
        | some v =>
          simp only [admit_email, hl, hem]
          simp

/-- C10: in every response the handler produces, sub_id is present
exactly when the status is "ok": the three error replies carry sub_id
null and both success replies carry the subscription id. -/
theorem response_sub_id_iff_ok (req : TrialRequest) (store : Store)
    (now0 now : Nat) (subO : Option Uuid) (tok : Uuid) :
    (handle_trial req store now0 now subO tok).response.sub_id.isSome =
      ((handle_trial req store now0 now subO tok).response.status == "ok") := by
  unfold handle_trial
  cases hv : req.validate
  · simp
  · cases hem : req.email with
    | none => cases subO <;> simp [handle_trial_rest, hem]
    | some e =>
      cases hl : List.lookup e store with
      | none =>
        simp only [admit_email, hl]
        cases subO <;> simp [handle_trial_rest, hem]
      | some v =>
        simp only [admit_email, hl]
        simp

/-- C5 counterexample: with FRKN_HOST set but FRKN_API_TOKEN unset,
building the subscription (or connection) request panics — the unwrap in
auth_headers (main.rs line 308) aborts instead of returning an error, so
the claim that the create_subscription path returns an error when
FRKN_API_TOKEN is unset is false. -/
theorem missing_token_panics :
    create_subscription_build
        (fun k => if k = "FRKN_HOST" then some "https://api" else none) =
      EnvOutcome.panicked ∧
    create_subscription_build
        (fun k => if k = "FRKN_HOST" then some "https://api" else none) ≠
      EnvOutcome.err ∧
    auth_headers
        (fun k => if k = "FRKN_HOST" then some "https://api" else none) =
      EnvOutcome.panicked ∧
    create_connection_build
        (fun k => if k = "FRKN_HOST" then some "https://api" else none) =
      EnvOutcome.panicked := by
  refine ⟨rfl, by simp [create_subscription_build, auth_headers], rfl, rfl⟩

/-- C5 (amended): absence of FRKN_HOST, GMAIL_USER or GMAIL_APP_PASSWORD
surfaces as a returned error (the ? operator), but absence of
FRKN_API_TOKEN makes auth_headers panic — reached from both the
subscription and the connection request-building paths — rather than
return an error. -/
theorem env_var_absence_behaviour (envv : EnvMap) :
    (envv "FRKN_HOST" = none →
      create_subscription_build envv = EnvOutcome.err ∧
      create_connection_build envv = EnvOutcome.err) ∧
    (envv "GMAIL_USER" = none → send_email_build envv = EnvOutcome.err) ∧
    (∀ u, envv "GMAIL_USER" = some u → envv "GMAIL_APP_PASSWORD" = none →
      send_email_build envv = EnvOutcome.err) ∧
    (∀ u p, envv "GMAIL_USER" = some u → envv "GMAIL_APP_PASSWORD" = some p →
      envv "FRKN_HOST" = none → send_email_build envv = EnvOutcome.err) ∧
    (∀ h, envv "FRKN_HOST" = some h → envv "FRKN_API_TOKEN" = none →
      create_subscription_build envv = EnvOutcome.panicked ∧
      create_connection_build envv = EnvOutcome.panicked) := by
  refine ⟨?_, ?_, ?_, ?_, ?_⟩ <;> intros <;>
    simp_all [create_subscription_build, create_connection_build,
      send_email_build, auth_headers]

/-- C5 witness: the amended theorem at the empty environment and at the
host-only environment. -/
theorem env_var_absence_behaviour_witness :
    create_subscription_build (fun _ => none) = EnvOutcome.err ∧
    create_connection_build (fun _ => none) = EnvOutcome.err ∧
    send_email_build (fun _ => none) = EnvOutcome.err ∧
    create_subscription_build
        (fun k => if k = "FRKN_HOST" then some "https://api" else none) =
      EnvOutcome.panicked := by
  refine ⟨((env_var_absence_behaviour (fun _ => none)).1 rfl).1,
    ((env_var_absence_behaviour (fun _ => none)).1 rfl).2,
    (env_var_absence_behaviour (fun _ => none)).2.1 rfl, ?_⟩
  exact ((env_var_absence_behaviour
    (fun k => if k = "FRKN_HOST" then some "https://api" else none)).2.2.2.2
    "https://api" rfl rfl).1

/-! ## Journal round-trip lemmas -/

theorem digitChar_ne (d : Nat) : digitChar d ≠ ',' ∧ digitChar d ≠ '\n' := by
  unfold digitChar
  split <;> exact ⟨by decide, by decide⟩

theorem charToDigit_digitChar : ∀ d : Nat, d < 10 →
    charToDigit (digitChar d) = some d := by
  decide

theorem renderTsAux_mem (fuel n : Nat) (c : Char)
    (hc : c ∈ renderTsAux fuel n) : ∃ d, c = digitChar d := by
  induction fuel generalizing n with
  | zero => simp [renderTsAux] at hc
  | succ fuel ih =>
    unfold renderTsAux at hc
    by_cases h : n = 0
    · simp [h] at hc
    · rw [if_neg h] at hc
      rcases List.mem_append.1 hc with h1 | h2
      · exact ih _ h1
      · simp at h2
        exact ⟨n % 10, h2⟩

/-- A rendered timestamp consists of digit characters only, so it never
contains the field separator or the record terminator. -/
theorem renderTs_good (n : Nat) : ',' ∉ renderTs n ∧ '\n' ∉ renderTs n := by
  constructor <;> intro hm
  · obtain ⟨d, hd⟩ := renderTsAux_mem n n _ hm
    exact (digitChar_ne d).1 hd.symm
  · obtain ⟨d, hd⟩ := renderTsAux_mem n n _ hm
    exact (digitChar_ne d).2 hd.symm

theorem parseTs_append (xs : List Char) (c : Char) :
    parseTs (xs ++ [c]) =
      match parseTs xs, charToDigit c with
      | some a, some d => some (a * 10 + d)
      | _, _ => none := by
  unfold parseTs
  rw [List.foldl_append]
  rfl

theorem parseTs_renderTsAux (fuel : Nat) : ∀ n : Nat, n ≤ fuel →
    parseTs (renderTsAux fuel n) = some n := by
  induction fuel with
  | zero =>
    intro n h
    have h0 : n = 0 := Nat.le_zero.1 h
    subst h0
    rfl
  | succ fuel ih =>
    intro n h
    unfold renderTsAux
    by_cases hn : n = 0
    · subst hn; rfl
    · rw [if_neg hn, parseTs_append]
      have hdiv : n / 10 ≤ fuel := by
        have h1 : n / 10 < n := Nat.div_lt_self (Nat.pos_of_ne_zero hn)
          (by norm_num)
        omega
      rw [ih _ hdiv, charToDigit_digitChar (n % 10)
        (Nat.mod_lt _ (by norm_num))]
      show some (n / 10 * 10 + n % 10) = some n
      congr 1
      omega

/-- Parsing a rendered timestamp gives the timestamp back. -/
theorem parseTs_renderTs (n : Nat) : parseTs (renderTs n) = some n :=
  parseTs_renderTsAux n n le_rfl

theorem splitOnCh_append_cons (sep : Char) (xs ys : List Char)
    (h : sep ∉ xs) :
    splitOnCh sep (xs ++ sep :: ys) = xs :: splitOnCh sep ys := by
  induction xs with
  | nil => simp [splitOnCh]
  | cons c cs ih =>
    have hc : ¬c = sep := fun hcs => h (hcs ▸ List.mem_cons_self c cs)
    have hcs : sep ∉ cs := fun hm => h (List.mem_cons_of_mem _ hm)
    rw [List.cons_append, splitOnCh.eq_def]
    simp only []
    rw [ih hcs]
    simp [hc]

theorem splitOnCh_no_sep (sep : Char) (xs : List Char) (h : sep ∉ xs) :
    splitOnCh sep xs = [xs] := by
  induction xs with
  | nil => rfl
  | cons c cs ih =>
    have hc : ¬c = sep := fun hcs => h (hcs ▸ List.mem_cons_self c cs)
    have hcs : sep ∉ cs := fun hm => h (List.mem_cons_of_mem _ hm)
    rw [splitOnCh.eq_def]
    simp only []
    rw [ih hcs]
    simp [hc]

/-- The single CSV line written for one entry (the middle part of
save_trial, between the old file content and the trailing newline). -/
def lineOf (en : CsvEntry) : List Char :=
  renderTs en.time ++ ',' ::
    (en.email ++ ',' ::
      ((en.telegram.getD []) ++ ',' :: (en.subId ++ ',' :: en.env)))

/-- An entry whose fields survive the no-escaping CSV format: no commas
and no newlines in any written field. -/
def GoodEntry (en : CsvEntry) : Prop :=
  goodField en.email ∧ goodField (en.telegram.getD []) ∧
    goodField en.subId ∧ goodField en.env

instance (en : CsvEntry) : Decidable (GoodEntry en) := by
  unfold GoodEntry; infer_instance

theorem save_trial_eq (file : List Char) (en : CsvEntry) :
    save_trial file en.email en.telegram en.subId en.env en.time =
      file ++ (lineOf en ++ ['\n']) := by
  simp [save_trial, lineOf]

theorem splitOnCh_lineOf (en : CsvEntry) (h : GoodEntry en) :
    splitOnCh ',' (lineOf en) =
      [renderTs en.time, en.email, en.telegram.getD [], en.subId, en.env] := by
  obtain ⟨he, ht, hs, hv⟩ := h
  unfold lineOf
  rw [splitOnCh_append_cons _ _ _ (renderTs_good en.time).1,
    splitOnCh_append_cons _ _ _ he.1,
    splitOnCh_append_cons _ _ _ ht.1,
    splitOnCh_append_cons _ _ _ hs.1,
    splitOnCh_no_sep _ _ hv.1]

theorem lineOf_no_newline (en : CsvEntry) (h : GoodEntry en) :
    '\n' ∉ lineOf en := by
  obtain ⟨⟨_, he⟩, ⟨_, ht⟩, ⟨_, hs⟩, ⟨_, hv⟩⟩ := h
  have hr := (renderTs_good en.time).2
  intro hm
  unfold lineOf at hm
  simp only [List.mem_append, List.mem_cons] at hm
  rcases hm with h1 | h2 | h3 | h4 | h5 | h6 | h7 | h8 | h9
  · exact hr h1
  · exact absurd h2 (by decide)
  · exact he h3
  · exact absurd h4 (by decide)
  · exact ht h5
  · exact absurd h6 (by decide)
  · exact hs h7
  · exact absurd h8 (by decide)
  · exact hv h9

theorem journalOf_eq (entries : List CsvEntry) (f0 : List Char) :
    entries.foldl
        (fun file en =>
          save_trial file en.email en.telegram en.subId en.env en.time) f0 =
      f0 ++ ((entries.map fun en => lineOf en ++ ['\n'])).flatten := by
  induction entries generalizing f0 with
  | nil => simp
  | cons en rest ih =>
    simp only [List.foldl_cons, List.map_cons, List.flatten_cons]
    rw [save_trial_eq, ih, List.append_assoc]

theorem splitOnCh_join_lines (lines : List (List Char))
    (h : ∀ l ∈ lines, '\n' ∉ l) :
    splitOnCh '\n' ((lines.map fun l => l ++ ['\n']).flatten) =
      lines ++ [[]] := by
  induction lines with
  | nil => rfl
  | cons l ls ih =>
    have hl : '\n' ∉ l := h l (List.mem_cons_self _ _)
    have hls : ∀ x ∈ ls, '\n' ∉ x := fun x hx => h x (List.mem_cons_of_mem _ hx)
    simp only [List.map_cons, List.flatten_cons]
    rw [List.append_assoc, List.singleton_append,
      splitOnCh_append_cons _ _ _ hl, ih hls, List.cons_append]

theorem load_line_empty (m : List (List Char × Nat)) : load_line m [] = m := rfl

theorem load_line_lineOf (m : List (List Char × Nat)) (en : CsvEntry)
    (h : GoodEntry en) :
    load_line m (lineOf en) = (en.email, en.time) :: m := by
  unfold load_line
  rw [splitOnCh_lineOf en h]
  simp [parseTs_renderTs]

theorem foldl_load_line (entries : List CsvEntry)
    (hgood : ∀ en ∈ entries, GoodEntry en) :
    ∀ m, List.foldl load_line m (entries.map lineOf) =
      entries.foldl (fun acc en => (en.email, en.time) :: acc) m := by
  induction entries with
  | nil => intro m; rfl
  | cons en rest ih =>
    intro m
    simp only [List.map_cons, List.foldl_cons]
    rw [load_line_lineOf m en (hgood en (List.mem_cons_self _ _)),
      ih (fun x hx => hgood x (List.mem_cons_of_mem _ hx))]

theorem lookup_insert_foldl (entries : List CsvEntry) (k : List Char) :
    ∀ m : List (List Char × Nat),
      (List.lookup k
        (entries.foldl (fun acc en => (en.email, en.time) :: acc) m)).isSome =
        true ↔
      k ∈ entries.map (fun en => en.email) ∨
        (List.lookup k m).isSome = true := by
  induction entries with
  | nil => intro m; simp
  | cons en rest ih =>
    intro m
    simp only [List.foldl_cons, List.map_cons, List.mem_cons]
    rw [ih, lookup_cons_iff]
    by_cases hk : k = en.email
    · simp [hk]
    · simp [hk]

theorem load_trials_journalOf (entries : List CsvEntry)
    (hgood : ∀ en ∈ entries, GoodEntry en) :
    load_trials (journalOf entries) =
      entries.foldl (fun acc en => (en.email, en.time) :: acc) [] := by
  unfold load_trials journalOf
  rw [journalOf_eq entries []]
  have hmm : (entries.map fun en => lineOf en ++ ['\n']) =
      ((entries.map lineOf).map fun l => l ++ ['\n']) := by
    rw [List.map_map]; rfl
  rw [List.nil_append, hmm, splitOnCh_join_lines (entries.map lineOf)
    (by intro l hl
        obtain ⟨en, hen, rfl⟩ := List.mem_map.1 hl
        exact lineOf_no_newline en (hgood en hen))]
  rw [List.foldl_append]
  simp only [List.foldl_cons, List.foldl_nil, load_line_empty]
  exact foldl_load_line entries hgood []

/-- C8 (amended): for every sequence of save_trial appends whose fields
contain no comma and no newline — the unescaping CSV format's implicit
precondition — loading the resulting journal yields an index whose key
set is exactly the set of appended emails. -/
theorem load_trials_roundtrip (entries : List CsvEntry)
    (hgood : ∀ en ∈ entries, GoodEntry en) (k : List Char) :
    (List.lookup k (load_trials (journalOf entries))).isSome = true ↔
      k ∈ entries.map fun en => en.email := by
  rw [load_trials_journalOf entries hgood, lookup_insert_foldl]
  simp

/-- C8 witness: a two-entry journal round-trips the first email. -/
theorem load_trials_roundtrip_witness :
    (List.lookup "a@b.c".data
      (load_trials (journalOf
        [⟨7, "a@b.c".data, some "tg".data, "sid".data, "dev".data⟩,
         ⟨9, "x@y.z".data, none, "sid2".data, "dev".data⟩]))).isSome =
      true :=
  (load_trials_roundtrip
    [⟨7, "a@b.c".data, some "tg".data, "sid".data, "dev".data⟩,
     ⟨9, "x@y.z".data, none, "sid2".data, "dev".data⟩]
    (by decide) "a@b.c".data).mpr (by decide)

/-- C8 counterexample: the email "a,b@c" (validation never rejects it)
is appended by save_trial, but load_trials recovers the key "a" instead
— no escaping is performed, so the comma splits the email field and the
round-trip claim fails as universally stated. -/
theorem journal_comma_counterexample :
    List.lookup ['a', ',', 'b', '@', 'c']
        (load_trials (save_trial [] ['a', ',', 'b', '@', 'c'] none
          ['s'] ['d'] 5)) = none ∧
    List.lookup ['a']
        (load_trials (save_trial [] ['a', ',', 'b', '@', 'c'] none
          ['s'] ['d'] 5)) = some 5 := by
  decide
